import Mathlib

/-
Verification of the interactive editing session engine of the Pixshop
browser photo editor.  The definitions below are a shallow embedding of the
main application component (its React `useState` fields become fields of an
explicit `AppState` record, and each event handler becomes a function from
state to state).  JavaScript numbers are modelled as rationals; all the
arithmetic the handlers perform (add, subtract, multiply, divide, min, max,
`Math.round`) is exact on the concrete inputs considered, and `Math.round x`
agrees with Mathlib's `round` (both are `⌊x + 1/2⌋`).  Data URLs and image
file contents are modelled as opaque values carrying only identity.
-/

namespace Pixshop

/-- A 2-D point with rational coordinates (JS numbers). -/
structure Point where
  x : ℚ
  y : ℚ
deriving DecidableEq, Repr

/-- An immutable image version (a `File` object in the source).  Only its
identity matters to the session engine, so it is modelled as a token. -/
structure ImageVersion where
  id : ℕ
deriving DecidableEq, Repr

/-- The active tab of the editor (the string-typed `Tab` union in the source). -/
inductive Tab
  | generate
  | retouch
  | editor
  | text
  | adjust
  | filters
  | crop
  | collage
  | cutout
deriving DecidableEq, Repr

/-- The compare mode union type from the source. -/
inductive CompareMode
  | off
  | split
  | slider
deriving DecidableEq, Repr

/-- A completed crop rectangle in displayed-element pixels (the `PixelCrop`
type of react-image-crop used by the source). -/
structure PixelCrop where
  x : ℚ
  y : ℚ
  width : ℚ
  height : ℚ
deriving DecidableEq, Repr

/-- The `useState` fields of the App component that the session engine
reads and writes.  `historyIndex` starts at `-1` in the source, hence `ℤ`. -/
structure AppState where
  history : List ImageVersion
  historyIndex : ℤ
  prompt : String
  isLoading : Bool
  error : Option String
  editHotspot : Option Point
  displayHotspot : Option Point
  activeTab : Tab
  crop : Option PixelCrop
  completedCrop : Option PixelCrop
  scale : ℚ
  translation : Point
  compareMode : CompareMode
  sliderPosition : ℚ
  collageImages : List ImageVersion
  highlighterMask : Option String
deriving DecidableEq, Repr

/-- `const currentImage = history[historyIndex] ?? null;` -/
def currentImage (s : AppState) : Option ImageVersion :=
  if s.historyIndex < 0 then none else s.history.get? s.historyIndex.toNat

/-- `handleImageUpload`: replaces the whole session with the uploaded file. -/
def handleImageUpload (s : AppState) (file : ImageVersion) : AppState :=
  { s with
    error := none
    history := [file]
    historyIndex := 0
    editHotspot := none
    displayHotspot := none
    activeTab := Tab.retouch
    crop := none
    completedCrop := none
    compareMode := CompareMode.off
    collageImages := []
    scale := 1
    translation := ⟨0, 0⟩ }

/-- `addImageToHistory`: `history.slice(0, historyIndex + 1)` then push, index
to the last slot, then reset crop, compare slider and zoom. -/
def addImageToHistory (s : AppState) (newImageFile : ImageVersion) : AppState :=
  let newHistory := s.history.take (s.historyIndex + 1).toNat ++ [newImageFile]
  { s with
    history := newHistory
    historyIndex := (newHistory.length : ℤ) - 1
    crop := none
    completedCrop := none
    sliderPosition := 50
    scale := 1
    translation := ⟨0, 0⟩ }

/-- Outcome of the awaited external image-transform call. -/
inductive EditOutcome
  | ok (img : ImageVersion)
  | err (msg : String)
deriving DecidableEq, Repr

/-- Whitespace trimming over the character list, the semantics of the
JavaScript `prompt.trim()` call (kernel-computable, unlike `String.trim`). -/
def trimChars (cs : List Char) : List Char :=
  (((cs.dropWhile Char.isWhitespace).reverse).dropWhile Char.isWhitespace).reverse

/-- The guard `!prompt.trim()` of `handleGenerate`: true when the prompt is
empty after trimming whitespace. -/
def promptTrimmedEmpty (s : AppState) : Bool :=
  (trimChars s.prompt.data).isEmpty

/-- `handleGenerate`, run to completion with the given outcome of the awaited
`generateEditedImage` call: guard clauses, then `setIsLoading(true)` and
`setError(null)`; on success append and clear the hotspots, on error set the
error message; `setIsLoading(false)` in `finally`. -/
def handleGenerateRun (s : AppState) (outcome : EditOutcome) : AppState :=
  if currentImage s = none then
    { s with error := some ("No image loaded to edit.") }
  else if promptTrimmedEmpty s then
    { s with error := some ("Please enter a description for your edit.") }
  else if s.editHotspot = none then
    { s with error := some ("Please click on the image to select an area to edit.") }
  else
    let s0 := { s with isLoading := true, error := none }
    match outcome with
    | EditOutcome.ok img =>
        let s1 := addImageToHistory s0 img
        { s1 with editHotspot := none, displayHotspot := none, isLoading := false }
    | EditOutcome.err msg =>
        { s0 with
          error := some ("Failed to generate the image. " ++ msg)
          isLoading := false }

/-- `handleApplyFilter`, run to completion with the given outcome of the
awaited `generateFilteredImage` call.  Unlike `handleGenerate`, the success
branch does not touch the hotspots. -/
def handleApplyFilterRun (s : AppState) (outcome : EditOutcome) : AppState :=
  if currentImage s = none then
    { s with error := some ("No image loaded to apply a filter to.") }
  else
    let s0 := { s with isLoading := true, error := none }
    match outcome with
    | EditOutcome.ok img =>
        { addImageToHistory s0 img with isLoading := false }
    | EditOutcome.err msg =>
        { s0 with
          error := some ("Failed to apply the filter. " ++ msg)
          isLoading := false }

/-- The success continuation of `handleGenerate` in isolation, for the
asynchronous interleaving where the component state has changed between call
time and resolve time.  `sCall` is the state captured by the React closure
when the request was issued (the continuation reads `history` and
`historyIndex` from it via `addImageToHistory`), `sNow` is the component
state at resolve time, which the `setState` calls overwrite.  The source
performs no comparison between the image version that originated the request
and the version current at resolve time. -/
def resolveGenerateSuccess (sCall sNow : AppState) (newImageFile : ImageVersion) :
    AppState :=
  let newHistory := sCall.history.take (sCall.historyIndex + 1).toNat ++ [newImageFile]
  { sNow with
    history := newHistory
    historyIndex := (newHistory.length : ℤ) - 1
    crop := none
    completedCrop := none
    sliderPosition := 50
    scale := 1
    translation := ⟨0, 0⟩
    editHotspot := none
    displayHotspot := none
    isLoading := false }

/-- `handleUndo`: guarded by `canUndo = historyIndex > 0`. -/
def handleUndo (s : AppState) : AppState :=
  if 0 < s.historyIndex then
    { s with
      historyIndex := s.historyIndex - 1
      editHotspot := none
      displayHotspot := none
      sliderPosition := 50
      scale := 1
      translation := ⟨0, 0⟩ }
  else s

/-- `handleRedo`: guarded by `canRedo = historyIndex < history.length - 1`. -/
def handleRedo (s : AppState) : AppState :=
  if s.historyIndex < (s.history.length : ℤ) - 1 then
    { s with
      historyIndex := s.historyIndex + 1
      editHotspot := none
      displayHotspot := none
      sliderPosition := 50
      scale := 1
      translation := ⟨0, 0⟩ }
  else s

/-- `handleReset`: guarded by `history.length > 0`; moves to index 0. -/
def handleReset (s : AppState) : AppState :=
  if 0 < s.history.length then
    { s with
      historyIndex := 0
      error := none
      editHotspot := none
      displayHotspot := none
      sliderPosition := 50
      collageImages := []
      scale := 1
      translation := ⟨0, 0⟩ }
  else s

/-- `handleWheel`: `ZOOM_SPEED = 0.005`; the new scale is
`Math.max(0.5, Math.min(5, scale - e.deltaY * ZOOM_SPEED))` and the new
translation keeps the mouse point anchored.  Returns (newScale, newTranslation). -/
def handleWheelStep (scale : ℚ) (tr mouse : Point) (deltaY : ℚ) : ℚ × Point :=
  let newScale := max (1 / 2) (min 5 (scale - deltaY * (1 / 200)))
  (newScale,
    ⟨mouse.x - (mouse.x - tr.x) * newScale / scale,
     mouse.y - (mouse.y - tr.y) * newScale / scale⟩)

/-- The two-finger branch of `handleTouchMove`: `scaleFactor` is
`currentPinchDistance / initialPinchDistance` (the previous frame's distance),
the new scale is `Math.max(0.5, Math.min(5, prevScale * scaleFactor))` and
the new translation keeps the touch midpoint anchored. -/
def handleTouchMovePinch (prevScale : ℚ) (prevTrans : Point) (scaleFactor : ℚ)
    (center : Point) : ℚ × Point :=
  let newScale := max (1 / 2) (min 5 (prevScale * scaleFactor))
  (newScale,
    ⟨center.x - (center.x - prevTrans.x) * newScale / prevScale,
     center.y - (center.y - prevTrans.y) * newScale / prevScale⟩)

/-- The geometry of the export canvas built by `handleApplyCrop`:
final canvas dimensions, the `setTransform` factor, the source rectangle
passed to `drawImage` and the destination rectangle. -/
structure CropExport where
  canvasWidth : ℚ
  canvasHeight : ℚ
  ctxScale : ℚ
  srcX : ℚ
  srcY : ℚ
  srcW : ℚ
  srcH : ℚ
  destW : ℚ
  destH : ℚ
deriving DecidableEq, Repr

/-- `handleApplyCrop`: `scaleX = naturalWidth / image.width`,
`scaleY = naturalHeight / image.height` (the element's client size),
canvas sized to `completedCrop * pixelRatio`, context pre-scaled by
`pixelRatio`, and `drawImage` source rectangle scaled by `scaleX`/`scaleY`. -/
def handleApplyCropExport (cc : PixelCrop) (naturalWidth naturalHeight
    imageWidth imageHeight dpr : ℚ) : CropExport :=
  let scaleX := naturalWidth / imageWidth
  let scaleY := naturalHeight / imageHeight
  { canvasWidth := cc.width * dpr
    canvasHeight := cc.height * dpr
    ctxScale := dpr
    srcX := cc.x * scaleX
    srcY := cc.y * scaleY
    srcW := cc.width * scaleX
    srcH := cc.height * scaleY
    destW := cc.width
    destH := cc.height }

/-- The hotspot computation of `handleImageClick`: viewport offset divided by
the current zoom scale, each axis scaled by `natural / client` for that axis,
then `Math.round` (which is `⌊x + 1/2⌋`, i.e. Mathlib's `round`). -/
def handleImageClickHotspot (clientX clientY rectLeft rectTop scale
    naturalWidth naturalHeight clientWidth clientHeight : ℚ) : ℤ × ℤ :=
  let viewportX := clientX - rectLeft
  let viewportY := clientY - rectTop
  let elementX := viewportX / scale
  let elementY := viewportY / scale
  let scaleToNaturalX := naturalWidth / clientWidth
  let scaleToNaturalY := naturalHeight / clientHeight
  (round (elementX * scaleToNaturalX), round (elementY * scaleToNaturalY))

/-- Modelled from the spec: `viewportToElement(point)` is `point / scale`. -/
def viewportToElement (p : Point) (scale : ℚ) : Point :=
  ⟨p.x / scale, p.y / scale⟩

/-- Modelled from the spec: `elementToNative` multiplies each axis by
`natural / client` for that axis independently and rounds to the nearest
integer pixel. -/
def elementToNative (p : Point) (naturalWidth naturalHeight
    clientWidth clientHeight : ℚ) : ℤ × ℤ :=
  (round (p.x * (naturalWidth / clientWidth)),
   round (p.y * (naturalHeight / clientHeight)))

/-- A concrete mid-session state used by witnesses and counterexamples:
three versions in history, currently at index 1, a hotspot set by a previous
retouch click, a nonempty prompt and an active highlighter mask. -/
def exState : AppState :=
  { history := [⟨0⟩, ⟨1⟩, ⟨2⟩]
    historyIndex := 1
    prompt := "add a hat"
    isLoading := false
    error := none
    editHotspot := some ⟨5, 5⟩
    displayHotspot := some ⟨5, 5⟩
    activeTab := Tab.filters
    crop := none
    completedCrop := none
    scale := 2
    translation := ⟨3, 4⟩
    compareMode := CompareMode.off
    sliderPosition := 50
    collageImages := []
    highlighterMask := some ("data-url-mask") }

/-- State captured by the closure at the time an edit request is issued:
a single-version history whose current version is `⟨0⟩`. -/
def sCallEx : AppState :=
  { exState with history := [⟨0⟩], historyIndex := 0 }

/-- Component state at resolve time: the user has moved on, the current
version is now `⟨1⟩`, not the originating `⟨0⟩`. -/
def sNowEx : AppState :=
  { exState with history := [⟨0⟩, ⟨1⟩], historyIndex := 1 }

/-- Auxiliary: the element appended at the end of a list is found at index
`l.length`. -/
theorem getElem?_append_singleton {α : Type} (l : List α) (v : α) :
    (l ++ [v]).get? l.length = some v := by
  induction l with
  | nil => rfl
  | cons a t ih => simp only [List.cons_append, List.length_cons, List.get?_cons_succ]; exact ih

/-- Auxiliary: after `addImageToHistory` the new file is the current image. -/
theorem currentImage_addImageToHistory (s : AppState) (v : ImageVersion) :
    currentImage (addImageToHistory s v) = some v := by
  unfold currentImage addImageToHistory
  simp only [List.length_append, List.length_cons, List.length_nil]
  have h1 : ((((s.history.take (s.historyIndex + 1).toNat).length + (0 + 1) : ℕ) : ℤ) - 1)
      = ((s.history.take (s.historyIndex + 1).toNat).length : ℤ) := by
    push_cast
    ring
  rw [h1]
  rw [if_neg (by exact not_lt.mpr (Int.natCast_nonneg _))]
  rw [Int.toNat_natCast]
  exact getElem?_append_singleton _ _

/-- C1: appending a version drops all versions after the current index,
appends it, and moves the index to the last position, so the new version is
immediately current; in particular, appending from index `k` with
`k < length - 1` yields a history of length `k + 2`. -/
theorem addImageToHistory_append_spec (s : AppState) (v : ImageVersion) :
    (addImageToHistory s v).history
      = s.history.take (s.historyIndex + 1).toNat ++ [v]
  ∧ (addImageToHistory s v).historyIndex
      = ((addImageToHistory s v).history.length : ℤ) - 1
  ∧ currentImage (addImageToHistory s v) = some v
  ∧ (∀ k : ℕ, s.historyIndex = (k : ℤ) →
      (k : ℤ) < (s.history.length : ℤ) - 1 →
      (addImageToHistory s v).history.length = k + 2) := by
  refine ⟨rfl, rfl, currentImage_addImageToHistory s v, ?_⟩
  intro k hk hlt
  have hle : k + 1 ≤ s.history.length := by omega
  simp only [addImageToHistory, hk, List.length_append, List.length_take,
    List.length_cons, List.length_nil]
  have htn : ((k : ℤ) + 1).toNat = k + 1 := by omega
  rw [htn]
  omega

/-- Witness for C1 at the concrete state `exState` (history of length 3 at
index 1): the appended version is current and the history shrinks to length 3. -/
theorem addImageToHistory_append_spec_witness :
    currentImage (addImageToHistory exState ⟨9⟩) = some ⟨9⟩
  ∧ (addImageToHistory exState ⟨9⟩).history.length = 3 :=
  ⟨(addImageToHistory_append_spec exState ⟨9⟩).2.2.1,
   (addImageToHistory_append_spec exState ⟨9⟩).2.2.2 1 (by decide) (by decide)⟩

/-- C10: uploading a new image replaces the whole history with the single
uploaded file at index 0 (discarding every previous version), makes it the
current image, clears both hotspots, clears the crop state, turns compare
mode off and resets the viewport to scale 1 and translation (0,0). -/
theorem handleImageUpload_spec (s : AppState) (file : ImageVersion) :
    (handleImageUpload s file).history = [file]
  ∧ (handleImageUpload s file).historyIndex = 0
  ∧ currentImage (handleImageUpload s file) = some file
  ∧ (handleImageUpload s file).editHotspot = none
  ∧ (handleImageUpload s file).displayHotspot = none
  ∧ (handleImageUpload s file).crop = none
  ∧ (handleImageUpload s file).completedCrop = none
  ∧ (handleImageUpload s file).compareMode = CompareMode.off
  ∧ (handleImageUpload s file).scale = 1
  ∧ (handleImageUpload s file).translation = ⟨0, 0⟩ := by
  refine ⟨rfl, rfl, ?_, rfl, rfl, rfl, rfl, rfl, rfl, rfl⟩
  rfl

/-- C5 counterexample: an in-flight edit was issued while version ⟨0⟩ was
current (`sCallEx`); at resolve time the current version is ⟨1⟩ (`sNowEx`),
so the originating version is no longer current — yet the result is not
discarded: the resolve path still appends and makes the result current. -/
theorem stale_result_still_appended_cex :
    currentImage sNowEx ≠ currentImage sCallEx
  ∧ (resolveGenerateSuccess sCallEx sNowEx ⟨2⟩).history ≠ sNowEx.history
  ∧ currentImage (resolveGenerateSuccess sCallEx sNowEx ⟨2⟩) = some ⟨2⟩ := by
  decide

/-- C5 amended: the success continuation of the external edit performs no
staleness check at all — for every call-time state and every resolve-time
state it appends the result to the call-time history and makes it the
current version; the only in-flight protection in the source is the
`isLoading` flag, which disables the edit and history controls while a
request is pending. -/
theorem resolveGenerateSuccess_unconditional_append (sCall sNow : AppState)
    (v : ImageVersion) :
    (resolveGenerateSuccess sCall sNow v).history
      = sCall.history.take (sCall.historyIndex + 1).toNat ++ [v]
  ∧ currentImage (resolveGenerateSuccess sCall sNow v) = some v
  ∧ (resolveGenerateSuccess sCall sNow v).isLoading = false := by
  refine ⟨rfl, ?_, rfl⟩
  have h := currentImage_addImageToHistory sCall v
  unfold currentImage addImageToHistory at h
  unfold currentImage resolveGenerateSuccess
  exact h

/-- C6: the crop export canvas measures `region.width * devicePixelRatio` by
`region.height * devicePixelRatio`, the drawing context is pre-scaled by
`devicePixelRatio`, and the source rectangle is the region scaled per axis by
`natural / client`; concretely, region (10,10,100,50) on a 1000×500 native
image displayed at 500×250 with devicePixelRatio 2 gives a 200×100 canvas
sourced from the native rectangle (20,20,200,100). -/
theorem handleApplyCrop_export_spec (cc : PixelCrop)
    (nw nh cw ch dpr : ℚ) :
    (handleApplyCropExport cc nw nh cw ch dpr).canvasWidth = cc.width * dpr
  ∧ (handleApplyCropExport cc nw nh cw ch dpr).canvasHeight = cc.height * dpr
  ∧ (handleApplyCropExport cc nw nh cw ch dpr).ctxScale = dpr
  ∧ (handleApplyCropExport cc nw nh cw ch dpr).srcX = cc.x * (nw / cw)
  ∧ (handleApplyCropExport cc nw nh cw ch dpr).srcY = cc.y * (nh / ch)
  ∧ (handleApplyCropExport cc nw nh cw ch dpr).srcW = cc.width * (nw / cw)
  ∧ (handleApplyCropExport cc nw nh cw ch dpr).srcH = cc.height * (nh / ch)
  ∧ handleApplyCropExport ⟨10, 10, 100, 50⟩ 1000 500 500 250 2
      = ⟨200, 100, 2, 20, 20, 200, 100, 100, 50⟩ := by
  refine ⟨rfl, rfl, rfl, rfl, rfl, rfl, rfl, ?_⟩
  simp only [handleApplyCropExport, CropExport.mk.injEq]
  norm_num

/-- C7: the native hotspot of a click divides the viewport offset by the
current zoom scale and then scales each axis independently by
`natural / client`, rounding to the nearest integer — it agrees with the
composition `elementToNative ∘ viewportToElement`; concretely a click at
displayed coordinates (50,50) on a natural 800×600 image displayed at
400×300 yields the integer hotspot (100,100). -/
theorem handleImageClick_hotspot_spec (clientX clientY rectLeft rectTop scale
    nw nh cw ch : ℚ) :
    handleImageClickHotspot clientX clientY rectLeft rectTop scale nw nh cw ch
      = elementToNative
          (viewportToElement ⟨clientX - rectLeft, clientY - rectTop⟩ scale)
          nw nh cw ch
  ∧ handleImageClickHotspot 50 50 0 0 1 800 600 400 300 = (100, 100) := by
  refine ⟨rfl, ?_⟩
  simp only [handleImageClickHotspot, Prod.mk.injEq]
  norm_num

/-- C2 counterexample: at the mid-session state `exState` a hotspot and a
highlighter mask are active; a successful filter append makes the new version
current yet leaves the hotspot set, and an undo leaves the mask layer in
place — so history mutations neither always clear the hotspot nor ever clear
the mask. -/
theorem filter_append_leaves_hotspot_cex :
    exState.editHotspot = some ⟨5, 5⟩
  ∧ currentImage (handleApplyFilterRun exState (EditOutcome.ok ⟨7⟩)) = some ⟨7⟩
  ∧ (handleApplyFilterRun exState (EditOutcome.ok ⟨7⟩)).editHotspot = some ⟨5, 5⟩
  ∧ exState.highlighterMask = some ("data-url-mask")
  ∧ (handleUndo exState).highlighterMask = some ("data-url-mask") := by
  exact ⟨rfl, by decide, rfl, rfl, rfl⟩

/-- C2 amended: every history mutation (append, undo, redo, reset) resets the
viewport to scale 1 and translation (0,0); undo, redo and reset also clear
the hotspot, and the retouch append (`handleGenerate`) clears it, but other
appends (e.g. a filter) leave the hotspot unchanged, and no history
mutation clears the active mask layer. -/
theorem history_mutation_side_effects (s : AppState) :
    (∀ v : ImageVersion,
        (addImageToHistory s v).scale = 1
      ∧ (addImageToHistory s v).translation = ⟨0, 0⟩
      ∧ (addImageToHistory s v).editHotspot = s.editHotspot
      ∧ (addImageToHistory s v).highlighterMask = s.highlighterMask)
  ∧ (0 < s.historyIndex →
        (handleUndo s).scale = 1 ∧ (handleUndo s).translation = ⟨0, 0⟩
      ∧ (handleUndo s).editHotspot = none ∧ (handleUndo s).displayHotspot = none
      ∧ (handleUndo s).highlighterMask = s.highlighterMask)
  ∧ (s.historyIndex < (s.history.length : ℤ) - 1 →
        (handleRedo s).scale = 1 ∧ (handleRedo s).translation = ⟨0, 0⟩
      ∧ (handleRedo s).editHotspot = none ∧ (handleRedo s).displayHotspot = none
      ∧ (handleRedo s).highlighterMask = s.highlighterMask)
  ∧ (0 < s.history.length →
        (handleReset s).scale = 1 ∧ (handleReset s).translation = ⟨0, 0⟩
      ∧ (handleReset s).editHotspot = none ∧ (handleReset s).displayHotspot = none
      ∧ (handleReset s).highlighterMask = s.highlighterMask)
  ∧ (∀ v : ImageVersion, currentImage s ≠ none → promptTrimmedEmpty s = false →
        s.editHotspot ≠ none →
        (handleGenerateRun s (EditOutcome.ok v)).editHotspot = none
      ∧ (handleGenerateRun s (EditOutcome.ok v)).displayHotspot = none
      ∧ (handleGenerateRun s (EditOutcome.ok v)).scale = 1
      ∧ (handleGenerateRun s (EditOutcome.ok v)).translation = ⟨0, 0⟩
      ∧ (handleGenerateRun s (EditOutcome.ok v)).highlighterMask = s.highlighterMask)
  ∧ (∀ v : ImageVersion, currentImage s ≠ none →
        (handleApplyFilterRun s (EditOutcome.ok v)).editHotspot = s.editHotspot
      ∧ (handleApplyFilterRun s (EditOutcome.ok v)).displayHotspot = s.displayHotspot
      ∧ (handleApplyFilterRun s (EditOutcome.ok v)).scale = 1
      ∧ (handleApplyFilterRun s (EditOutcome.ok v)).translation = ⟨0, 0⟩
      ∧ (handleApplyFilterRun s (EditOutcome.ok v)).highlighterMask
          = s.highlighterMask) := by
  refine ⟨fun v => ⟨rfl, rfl, rfl, rfl⟩, fun h => ?_, fun h => ?_, fun h => ?_,
    fun v h1 h2 h3 => ?_, fun v h1 => ?_⟩
  · unfold handleUndo
    rw [if_pos h]
    exact ⟨rfl, rfl, rfl, rfl, rfl⟩
  · unfold handleRedo
    rw [if_pos h]
    exact ⟨rfl, rfl, rfl, rfl, rfl⟩
  · unfold handleReset
    rw [if_pos h]
    exact ⟨rfl, rfl, rfl, rfl, rfl⟩
  · unfold handleGenerateRun
    rw [if_neg h1, if_neg (by simp [h2]), if_neg h3]
    exact ⟨rfl, rfl, rfl, rfl, rfl⟩
  · unfold handleApplyFilterRun
    rw [if_neg h1]
    exact ⟨rfl, rfl, rfl, rfl, rfl⟩

/-- Witness for C2 (amended) at `exState`: all four index-move and append
premises hold there simultaneously. -/
theorem history_mutation_side_effects_witness :
    (addImageToHistory exState ⟨7⟩).scale = 1
  ∧ (handleUndo exState).editHotspot = none
  ∧ (handleRedo exState).editHotspot = none
  ∧ (handleReset exState).editHotspot = none
  ∧ (handleGenerateRun exState (EditOutcome.ok ⟨7⟩)).editHotspot = none
  ∧ (handleApplyFilterRun exState (EditOutcome.ok ⟨7⟩)).editHotspot
      = exState.editHotspot :=
  ⟨((history_mutation_side_effects exState).1 ⟨7⟩).1,
   ((history_mutation_side_effects exState).2.1 (by decide)).2.2.1,
   ((history_mutation_side_effects exState).2.2.1 (by decide)).2.2.1,
   ((history_mutation_side_effects exState).2.2.2.1 (by decide)).2.2.1,
   ((history_mutation_side_effects exState).2.2.2.2.1 ⟨7⟩ (by decide) (by decide)
      (by decide)).1,
   ((history_mutation_side_effects exState).2.2.2.2.2 ⟨7⟩ (by decide)).1⟩

/-- C3 counterexample: at deltaY = -100 there is no single zoom factor `f`
such that the wheel handler computes `clamp(scale * f, 0.5, 5)` for every
current scale: from scale 1 the new scale is 1.5 (forcing f = 1.5) but from
scale 2 it is 2.5 (forcing f = 1.25).  Wheel zoom is not multiplicative. -/
theorem wheel_zoom_not_multiplicative :
    ¬ ∃ f : ℚ, ∀ scale : ℚ,
      (handleWheelStep scale ⟨0, 0⟩ ⟨0, 0⟩ (-100)).1
        = max (1 / 2) (min 5 (scale * f)) := by
  rintro ⟨f, h⟩
  have h1 := h 1
  have h2 := h 2
  have e1 : (handleWheelStep 1 ⟨0, 0⟩ ⟨0, 0⟩ (-100)).1 = 3 / 2 := by
    simp only [handleWheelStep]
    norm_num [min_def, max_def]
  have e2 : (handleWheelStep 2 ⟨0, 0⟩ ⟨0, 0⟩ (-100)).1 = 5 / 2 := by
    simp only [handleWheelStep]
    norm_num [min_def, max_def]
  rw [e1] at h1
  rw [e2] at h2
  have hf1 : f = 3 / 2 := by
    rcases le_or_lt (min 5 (1 * f)) (1 / 2) with hle | hlt
    · rw [max_eq_left hle] at h1
      norm_num at h1
    · rw [max_eq_right hlt.le] at h1
      rcases le_or_lt (5 : ℚ) (1 * f) with h5 | h5
      · rw [min_eq_left h5] at h1
        norm_num at h1
      · rw [min_eq_right h5.le] at h1
        linarith
  have hf2 : f = 5 / 4 := by
    rcases le_or_lt (min 5 (2 * f)) (1 / 2) with hle | hlt
    · rw [max_eq_left hle] at h2
      norm_num at h2
    · rw [max_eq_right hlt.le] at h2
      rcases le_or_lt (5 : ℚ) (2 * f) with h5 | h5
      · rw [min_eq_left h5] at h2
        norm_num at h2
      · rw [min_eq_right h5.le] at h2
        linarith
  rw [hf1] at hf2
  norm_num at hf2

/-- C3 amended: for every current scale and every wheel event the new scale
is the additive step `scale - deltaY * 0.005` clamped to [0.5, 5] — so the
clamp-to-range invariant holds, but the step is additive in deltaY, not a
multiplication by an event-determined factor. -/
theorem handleWheel_scale_additive_clamped (scale deltaY : ℚ) (tr mouse : Point) :
    (handleWheelStep scale tr mouse deltaY).1
      = max (1 / 2) (min 5 (scale - deltaY * (1 / 200)))
  ∧ 1 / 2 ≤ (handleWheelStep scale tr mouse deltaY).1
  ∧ (handleWheelStep scale tr mouse deltaY).1 ≤ 5 := by
  refine ⟨rfl, le_max_left _ _, ?_⟩
  exact max_le (by norm_num) (min_le_left _ _)

/-- C4: both the wheel handler and the pinch branch of the touch handler set
`newTranslation = anchor - (anchor - translation) * newScale / scale`, which
keeps the anchor's image coordinate invariant:
`(anchor - newTranslation) / newScale = (anchor - translation) / scale`
on each axis (exactly, over ℚ). -/
theorem zoom_anchor_invariant (scale deltaY prevScale scaleFactor : ℚ)
    (tr mouse prevTrans center : Point)
    (hs : scale ≠ 0) (hps : prevScale ≠ 0) :
    ((mouse.x - ((handleWheelStep scale tr mouse deltaY).2).x)
        / (handleWheelStep scale tr mouse deltaY).1
      = (mouse.x - tr.x) / scale)
  ∧ ((mouse.y - ((handleWheelStep scale tr mouse deltaY).2).y)
        / (handleWheelStep scale tr mouse deltaY).1
      = (mouse.y - tr.y) / scale)
  ∧ ((center.x - ((handleTouchMovePinch prevScale prevTrans scaleFactor center).2).x)
        / (handleTouchMovePinch prevScale prevTrans scaleFactor center).1
      = (center.x - prevTrans.x) / prevScale)
  ∧ ((center.y - ((handleTouchMovePinch prevScale prevTrans scaleFactor center).2).y)
        / (handleTouchMovePinch prevScale prevTrans scaleFactor center).1
      = (center.y - prevTrans.y) / prevScale) := by
  have key : ∀ a t c ns : ℚ, c ≠ 0 → ns ≠ 0 →
      (a - (a - (a - t) * ns / c)) / ns = (a - t) / c := by
    intro a t c ns hc hns
    field_simp
    ring
  have hw : (0 : ℚ) < max (1 / 2) (min 5 (scale - deltaY * (1 / 200))) :=
    lt_of_lt_of_le (by norm_num) (le_max_left _ _)
  have hp : (0 : ℚ) < max (1 / 2) (min 5 (prevScale * scaleFactor)) :=
    lt_of_lt_of_le (by norm_num) (le_max_left _ _)
  exact ⟨key mouse.x tr.x scale _ hs hw.ne',
    key mouse.y tr.y scale _ hs hw.ne',
    key center.x prevTrans.x prevScale _ hps hp.ne',
    key center.y prevTrans.y prevScale _ hps hp.ne'⟩

/-- Witness for C4 at concrete values: wheel zoom from scale 2 at anchor
(10,20) with translation (4,6), and pinch from scale 2 with factor 3/2 at
midpoint (8,8). -/
theorem zoom_anchor_invariant_witness :
    ((10 : ℚ) - ((handleWheelStep 2 ⟨4, 6⟩ ⟨10, 20⟩ (-100)).2).x)
        / (handleWheelStep 2 ⟨4, 6⟩ ⟨10, 20⟩ (-100)).1 = ((10 : ℚ) - 4) / 2
  ∧ ((8 : ℚ) - ((handleTouchMovePinch 2 ⟨4, 6⟩ (3 / 2) ⟨8, 8⟩).2).x)
        / (handleTouchMovePinch 2 ⟨4, 6⟩ (3 / 2) ⟨8, 8⟩).1 = ((8 : ℚ) - 4) / 2 :=
  ⟨(zoom_anchor_invariant 2 (-100) 2 (3 / 2) ⟨4, 6⟩ ⟨10, 20⟩ ⟨4, 6⟩ ⟨8, 8⟩
      (by norm_num) (by norm_num)).1,
   (zoom_anchor_invariant 2 (-100) 2 (3 / 2) ⟨4, 6⟩ ⟨10, 20⟩ ⟨4, 6⟩ ⟨8, 8⟩
      (by norm_num) (by norm_num)).2.2.1⟩

/-- C8 counterexample: a click one pixel past the right edge of a 400-wide
element displaying an 800-wide image maps to native x = 802, which is not
clamped into [0, 800). -/
theorem hotspot_out_of_range_cex :
    (handleImageClickHotspot 401 0 0 0 1 800 600 400 300).1 = 802
  ∧ ¬ ((handleImageClickHotspot 401 0 0 0 1 800 600 400 300).1 < 800) := by
  have h : (handleImageClickHotspot 401 0 0 0 1 800 600 400 300).1 = 802 := by
    simp only [handleImageClickHotspot]
    norm_num
  refine ⟨h, ?_⟩
  rw [h]
  norm_num

/-- C8 amended: the click-to-hotspot mapping is a total function (it never
throws) and performs no clamping; for nonnegative viewport offsets with
positive scale and client dimensions the coordinates are nonnegative, but
positions at or beyond the element edge yield coordinates at or beyond the
natural dimensions. -/
theorem hotspot_mapping_no_clamp_nonneg (clientX clientY rectLeft rectTop scale
    nw nh cw ch : ℚ)
    (hx : 0 ≤ clientX - rectLeft) (hy : 0 ≤ clientY - rectTop)
    (hs : 0 < scale) (hcw : 0 < cw) (hch : 0 < ch)
    (hnw : 0 ≤ nw) (hnh : 0 ≤ nh) :
    0 ≤ (handleImageClickHotspot clientX clientY rectLeft rectTop scale
          nw nh cw ch).1
  ∧ 0 ≤ (handleImageClickHotspot clientX clientY rectLeft rectTop scale
          nw nh cw ch).2 := by
  constructor
  · show (0 : ℤ) ≤ round (((clientX - rectLeft) / scale) * (nw / cw))
    rw [round_eq]
    refine Int.floor_nonneg.mpr ?_
    have hm := mul_nonneg (div_nonneg hx hs.le) (div_nonneg hnw hcw.le)
    linarith
  · show (0 : ℤ) ≤ round (((clientY - rectTop) / scale) * (nh / ch))
    rw [round_eq]
    refine Int.floor_nonneg.mpr ?_
    have hm := mul_nonneg (div_nonneg hy hs.le) (div_nonneg hnh hch.le)
    linarith

/-- Witness for C8 (amended) at the in-bounds click of Scenario D. -/
theorem hotspot_mapping_no_clamp_nonneg_witness :
    0 ≤ (handleImageClickHotspot 50 50 0 0 1 800 600 400 300).1
  ∧ 0 ≤ (handleImageClickHotspot 50 50 0 0 1 800 600 400 300).2 :=
  hotspot_mapping_no_clamp_nonneg 50 50 0 0 1 800 600 400 300
    (by norm_num) (by norm_num) (by norm_num) (by norm_num) (by norm_num)
    (by norm_num) (by norm_num)

/-- C9: when the external edit fails (the capability rejects or errors),
both the retouch and the filter flows surface an error and leave the
program state unchanged — history, current index, viewport scale and
translation, both hotspots and the mask are exactly as before (no partial
append). -/
theorem edit_failure_preserves_state (s : AppState) (msg : String) :
    ((handleGenerateRun s (EditOutcome.err msg)).history = s.history
  ∧ (handleGenerateRun s (EditOutcome.err msg)).historyIndex = s.historyIndex
  ∧ (handleGenerateRun s (EditOutcome.err msg)).scale = s.scale
  ∧ (handleGenerateRun s (EditOutcome.err msg)).translation = s.translation
  ∧ (handleGenerateRun s (EditOutcome.err msg)).editHotspot = s.editHotspot
  ∧ (handleGenerateRun s (EditOutcome.err msg)).displayHotspot = s.displayHotspot
  ∧ (handleGenerateRun s (EditOutcome.err msg)).highlighterMask = s.highlighterMask
  ∧ (handleGenerateRun s (EditOutcome.err msg)).error.isSome = true)
  ∧ ((handleApplyFilterRun s (EditOutcome.err msg)).history = s.history
  ∧ (handleApplyFilterRun s (EditOutcome.err msg)).historyIndex = s.historyIndex
  ∧ (handleApplyFilterRun s (EditOutcome.err msg)).scale = s.scale
  ∧ (handleApplyFilterRun s (EditOutcome.err msg)).translation = s.translation
  ∧ (handleApplyFilterRun s (EditOutcome.err msg)).editHotspot = s.editHotspot
  ∧ (handleApplyFilterRun s (EditOutcome.err msg)).displayHotspot
      = s.displayHotspot
  ∧ (handleApplyFilterRun s (EditOutcome.err msg)).highlighterMask
      = s.highlighterMask
  ∧ (handleApplyFilterRun s (EditOutcome.err msg)).error.isSome = true) := by
  unfold handleGenerateRun handleApplyFilterRun
  split_ifs <;>
    exact ⟨⟨rfl, rfl, rfl, rfl, rfl, rfl, rfl, rfl⟩,
           ⟨rfl, rfl, rfl, rfl, rfl, rfl, rfl, rfl⟩⟩

end Pixshop
